import Mathlib

/-!
# Verification of the Lotto America scrape-parse-cache service

This file gives a shallow embedding of the TypeScript sources of the
`lotto-america` repository and proves properties of the embedded code.

Conventions of the embedding:

* JavaScript numbers that only ever hold integers are modelled as `Int`
  (or `Nat` where the source value is a count or a digit parse).
* `Date.now()` and `new Date().getFullYear()` are explicit parameters
  (`t : Int` in milliseconds, `currentYear : Int`).
* The HTTP fetch performed by `axios.get` is an explicit `FetchOutcome`
  parameter: either a status code plus a body, or a thrown transport error
  rendered as a message string.
* The mutable module-level variables (`cachedResults`, `lastFetchTime`,
  `lastDiagnostics`) form an explicit `ServerState` record that the request
  handler threads through.
* The regular expressions of the source are realised as direct scanning
  functions over `List Char` that reproduce the leftmost-match semantics of
  the specific patterns used (including the greedy-then-backtrack behaviour
  of the `{1,2}` digit quantifiers, which for these patterns is equivalent
  to a deterministic greedy rule, as argued in the comments).
-/

/-! ## JavaScript-style string primitives -/

/-- Whitespace characters matched by JavaScript `\s` (ASCII subset). -/
def jsWs (c : Char) : Bool :=
  c = ' ' || c = '\t' || c = '\n' || c = '\r' || c = '\x0b' || c = '\x0c'

/-- Auxiliary for `normalizeWs`: `inRun` records whether the previous
character was part of a whitespace run already emitted as one space. -/
def normWsAux : Bool → List Char → List Char
  | _, [] => []
  | inRun, c :: cs =>
    if jsWs c then
      if inRun then normWsAux true cs else ' ' :: normWsAux true cs
    else
      c :: normWsAux false cs

/-- `s.replace(/\s+/g, ' ')`: collapse every whitespace run to one space. -/
def normalizeWs (s : String) : String := String.mk (normWsAux false s.data)

/-- First index at which `pat` occurs in `l`, offset by `i`. -/
def indexOfAux : List Char → List Char → Nat → Option Nat
  | l, pat, i =>
    match l with
    | [] => if pat.isEmpty then some i else none
    | _ :: tl => if pat.isPrefixOf l then some i else indexOfAux tl pat (i + 1)

/-- JavaScript `s.indexOf(pat, start)`; `none` models the `-1` result. -/
def strIndexOfFrom (s pat : String) (start : Nat) : Option Nat :=
  (indexOfAux (s.data.drop start) pat.data 0).map (· + start)

/-- Whether `pat` occurs anywhere in `l`. -/
def containsList (l pat : List Char) : Bool := (indexOfAux l pat 0).isSome

/-- JavaScript `s.slice(a, b)` for non-negative indices (clamped). -/
def strSlice (s : String) (a b : Nat) : String :=
  String.mk ((s.data.drop a).take (b - a))

/-- JavaScript `s.trim()` (ASCII whitespace). -/
def jsTrim (s : String) : String :=
  String.mk (((s.data.dropWhile jsWs).reverse.dropWhile jsWs).reverse)

/-- Numeric value of a list of decimal digit characters. -/
def digitsVal (l : List Char) : Nat :=
  l.foldl (fun acc c => acc * 10 + (c.toNat - '0'.toNat)) 0

/-- JavaScript `parseInt(s, 10)`: skip leading whitespace, optional sign,
then a maximal run of decimal digits; `none` models `NaN`. -/
def parseIntJs (s : String) : Option Int :=
  let l := s.data.dropWhile jsWs
  match l with
  | '-' :: rest =>
    let ds := rest.takeWhile Char.isDigit
    if ds.isEmpty then none else some (-(digitsVal ds : Int))
  | '+' :: rest =>
    let ds := rest.takeWhile Char.isDigit
    if ds.isEmpty then none else some (digitsVal ds : Int)
  | _ =>
    let ds := l.takeWhile Char.isDigit
    if ds.isEmpty then none else some (digitsVal ds : Int)

/-- First maximal run of decimal digits anywhere in `s` (the `/\d+/` match),
as a natural number. -/
def firstDigitRun (s : String) : Option Nat :=
  let l := s.data.dropWhile (fun c => !c.isDigit)
  let ds := l.takeWhile Char.isDigit
  if ds.isEmpty then none else some (digitsVal ds)

/-- `numbers.join(' ')` for a list of integers. -/
def joinSpace : List Int → String
  | [] => ""
  | [n] => toString n
  | n :: rest => toString n ++ " " ++ joinSpace rest

/-- `numbers.join(',')` for a list of integers. -/
def joinComma : List Int → String
  | [] => ""
  | [n] => toString n
  | n :: rest => toString n ++ "," ++ joinComma rest

/-- ASCII lowering of a character list (JavaScript `i` regex flag). -/
def lowerChars (l : List Char) : List Char := l.map Char.toLower

/-! ## The `toLocaleDateString('en-US', {weekday, year, month, day})` model

JavaScript `new Date(year, monthIndex, day)` normalises out-of-range month
indices and days by rolling over into adjacent months/years.  We model this
with the standard civil-from-days / days-from-civil conversion on the
proleptic Gregorian calendar (using floor division throughout). -/

/-- Days since 1970-01-01 of the civil date `(y, m, d)` with `m ∈ [1,12]`. -/
def daysFromCivil (y m d : Int) : Int :=
  let y1 := if m ≤ 2 then y - 1 else y
  let era := Int.fdiv y1 400
  let yoe := y1 - era * 400
  let mp := Int.emod (m + 9) 12
  let doy := Int.fdiv (153 * mp + 2) 5 + d - 1
  let doe := yoe * 365 + Int.fdiv yoe 4 - Int.fdiv yoe 100 + doy
  era * 146097 + doe - 719468

/-- Civil date `(y, m, d)` of a count of days since 1970-01-01. -/
def civilFromDays (g : Int) : Int × Int × Int :=
  let z := g + 719468
  let era := Int.fdiv z 146097
  let doe := z - era * 146097
  let yoe := Int.fdiv (doe - Int.fdiv doe 1460 + Int.fdiv doe 36524 - Int.fdiv doe 146096) 365
  let y := yoe + era * 400
  let doy := doe - (365 * yoe + Int.fdiv yoe 4 - Int.fdiv yoe 100)
  let mp := Int.fdiv (5 * doy + 2) 153
  let d := doy - Int.fdiv (153 * mp + 2) 5 + 1
  let m := mp + (if mp < 10 then 3 else -9)
  (if m ≤ 2 then y + 1 else y, m, d)

/-- English weekday name from a day count since 1970-01-01 (a Thursday). -/
def weekdayName (g : Int) : String :=
  let w := Int.emod (g + 4) 7
  if w = 0 then "Sunday"
  else if w = 1 then "Monday"
  else if w = 2 then "Tuesday"
  else if w = 3 then "Wednesday"
  else if w = 4 then "Thursday"
  else if w = 5 then "Friday"
  else "Saturday"

/-- English month name for `m ∈ [1,12]`. -/
def monthName (m : Int) : String :=
  if m = 1 then "January"
  else if m = 2 then "February"
  else if m = 3 then "March"
  else if m = 4 then "April"
  else if m = 5 then "May"
  else if m = 6 then "June"
  else if m = 7 then "July"
  else if m = 8 then "August"
  else if m = 9 then "September"
  else if m = 10 then "October"
  else if m = 11 then "November"
  else "December"

/-- `new Date(y, monthIdx, day).toLocaleDateString('en-US', {weekday:'long',
year:'numeric', month:'long', day:'numeric'})`, e.g.
`"Wednesday, October 29, 2025"`.  `monthIdx` is zero-based as in JS and may
be out of range; the date rolls over as JS does. -/
def jsToLocale (y monthIdx day : Int) : String :=
  let ya := y + Int.fdiv monthIdx 12
  let ma := Int.emod monthIdx 12 + 1
  let g := daysFromCivil ya ma 1 + (day - 1)
  let c := civilFromDays g
  weekdayName g ++ ", " ++ monthName c.2.1 ++ " " ++ toString c.2.2 ++ ", " ++ toString c.1

/-! ## Shared data model

`LottoResult`, `DiagnosticStep` and `ScrapeDiagnostics` are declared
(identically up to the optional `debugInfo` field, which only
`src/pages/api/lotto.ts` declares) in every variant of the API route; we
declare them once.  Optional (`?:`) fields are `Option`s. -/

structure LottoResult where
  date : String
  numbers : List Int
  starBall : Int
  allStarBonus : Int
  winners : Int
  jackpot : String
  isLive : Option Bool
  debugInfo : Option String
deriving DecidableEq

structure DiagnosticStep where
  label : String
  ok : Bool
  details : Option String
deriving DecidableEq

structure DiagCounts where
  cardsFound : Int
  completeResults : Int
deriving DecidableEq

structure ScrapeDiagnostics where
  steps : List DiagnosticStep
  counts : DiagCounts
  sourceUrl : String
  httpStatus : Option Nat
  usedFallback : Option Bool
  errors : Option (List String)
deriving DecidableEq

/-- The fixed fallback dataset, identical in all variants of the route. -/
def fallbackResults : List LottoResult :=
  [{ date := "Wednesday, October 29, 2025", numbers := [21, 33, 40, 42, 50],
     starBall := 5, allStarBonus := 2, winners := 35560,
     jackpot := "$5,680,000", isLive := some false, debugInfo := none },
   { date := "Monday, October 27, 2025", numbers := [12, 21, 27, 35, 39],
     starBall := 2, allStarBonus := 4, winners := 29269,
     jackpot := "$5,530,000", isLive := some false, debugInfo := none },
   { date := "Saturday, October 25, 2025", numbers := [2, 31, 33, 35, 50],
     starBall := 7, allStarBonus := 2, winners := 48122,
     jackpot := "$5,400,000", isLive := some false, debugInfo := none }]

/-- Range predicate for main numbers, as tested by the Iowa parser. -/
def int52 (n : Int) : Bool := decide (1 ≤ n ∧ n ≤ 52)

/-- Range predicate for the star ball, as tested by the Iowa parser. -/
def int10 (n : Int) : Bool := decide (1 ≤ n ∧ n ≤ 10)

/-! ## JSON serialisation (`JSON.stringify` of a diagnostics object)

Only the presence/absence of the serialised string matters to any theorem
below; the serialiser is nevertheless an honest rendering (fixed key order
`steps, counts, sourceUrl, httpStatus, usedFallback, errors`, omitting
absent optional fields, with basic character escaping). -/

def jsonEscapeChar (c : Char) : List Char :=
  if c = '"' then ['\\', '"']
  else if c = '\\' then ['\\', '\\']
  else if c = '\n' then ['\\', 'n']
  else if c = '\r' then ['\\', 'r']
  else if c = '\t' then ['\\', 't']
  else [c]

def jsonStr (s : String) : String :=
  "\"" ++ String.mk (s.data.flatMap jsonEscapeChar) ++ "\""

def jsonBool (b : Bool) : String := if b then "true" else "false"

def jsonOfStep (st : DiagnosticStep) : String :=
  "\x7b\"label\":" ++ jsonStr st.label ++ ",\"ok\":" ++ jsonBool st.ok ++
    (match st.details with
     | some d => ",\"details\":" ++ jsonStr d
     | none => "") ++ "\x7d"

def jsonJoin : List String → String
  | [] => ""
  | [s] => s
  | s :: rest => s ++ "," ++ jsonJoin rest

def jsonOfDiagnostics (d : ScrapeDiagnostics) : String :=
  "\x7b\"steps\":[" ++ jsonJoin (d.steps.map jsonOfStep) ++ "]," ++
    "\"counts\":\x7b\"cardsFound\":" ++ toString d.counts.cardsFound ++
    ",\"completeResults\":" ++ toString d.counts.completeResults ++ "\x7d," ++
    "\"sourceUrl\":" ++ jsonStr d.sourceUrl ++
    (match d.httpStatus with
     | some s => ",\"httpStatus\":" ++ toString s
     | none => "") ++
    (match d.usedFallback with
     | some b => ",\"usedFallback\":" ++ jsonBool b
     | none => "") ++
    (match d.errors with
     | some es => ",\"errors\":[" ++ jsonJoin (es.map jsonStr) ++ "]"
     | none => "") ++ "\x7d"


/-! ## Scanners for the regular expressions of `parseIowaLottoAmericaHtml`

Each definition realises one regex from the source with JavaScript
leftmost-match semantics.  Where a `{1,2}` quantifier would backtrack, the
only viable alternatives are "two digits" then "one digit"; these scanners
try exactly those, in that order. -/

/-- One attempted match of
`/<span[^>]*class="number"[^>]*>\s*([0-9]{1,2})\s*<\/span>/i`
at the head of `l` (already lowercased): on success, the captured value and
the remainder after the match.  `[^>]*class="number"[^>]*>` is equivalent to:
no `>` before the first `>` after `<span`, and `class="number"` occurs in
between. -/
def matchSpanAt (l : List Char) : Option (Nat × List Char) :=
  if ("<span".data).isPrefixOf l then
    let after := l.drop 5
    let inside := after.takeWhile (fun c => c ≠ '>')
    match after.drop inside.length with
    | '>' :: rest2 =>
      if containsList inside ("class=\"number\"".data) then
        let rest3 := rest2.dropWhile jsWs
        let ds := rest3.takeWhile Char.isDigit
        if ds.length = 1 ∨ ds.length = 2 then
          let rest4 := (rest3.drop ds.length).dropWhile jsWs
          if ("</span>".data).isPrefixOf rest4 then
            some (digitsVal ds, rest4.drop 7)
          else none
        else none
      else none
    | _ => none
  else none

/-- Global scan of the span regex (the `while (exec)` loop), collecting all
captured values left to right. -/
def spanScanAux : Nat → List Char → List Nat → List Nat
  | 0, _, acc => acc.reverse
  | _ + 1, [], acc => acc.reverse
  | fuel + 1, c :: tl, acc =>
    match matchSpanAt (c :: tl) with
    | some (v, rest) => spanScanAux fuel rest (v :: acc)
    | none => spanScanAux fuel tl acc

/-- All numbers captured by the span regex over `s` (case-insensitive). -/
def spanScan (s : String) : List Int :=
  (spanScanAux s.data.length (lowerChars s.data) []).map Int.ofNat

/-- `(\d{1,2})\/` at the head of `l`: month digits then a slash; greedy two
digits first, backtracking to one.  Returns the value, the consumed
characters, and the rest. -/
def monthSlash : List Char → Option (Nat × List Char × List Char)
  | a :: b :: rest =>
    if a.isDigit then
      if b.isDigit then
        match rest with
        | '/' :: r2 => some (digitsVal [a, b], [a, b, '/'], r2)
        | _ => none
      else if b = '/' then some (digitsVal [a], [a, b], rest)
      else none
    else none
  | _ => none

/-- Trailing `(\d{1,2})` with nothing after it: greedily take up to two
digits.  Returns the value and the consumed characters. -/
def dayTail : List Char → Option (Nat × List Char)
  | a :: b :: _ =>
    if a.isDigit then
      if b.isDigit then some (digitsVal [a, b], [a, b])
      else some (digitsVal [a], [a])
    else none
  | [a] => if a.isDigit then some (digitsVal [a], [a]) else none
  | [] => none

/-- One attempted match of
`/Drawing Date:[^0-9]*([0-9]{1,2})\/([0-9]{1,2})/` at an occurrence of the
literal: skip the maximal run of non-digits (the only viable extent of
`[^0-9]*`), then month/slash/day. -/
def matchDrawDateAt (l : List Char) : Option (Nat × Nat) :=
  if ("Drawing Date:".data).isPrefixOf l then
    let after := (l.drop 13).dropWhile (fun c => !c.isDigit)
    match monthSlash after with
    | some (m, _, r2) =>
      match dayTail r2 with
      | some (d, _) => some (m, d)
      | none => none
    | none => none
  else none

/-- Leftmost match of the primary drawing-date regex over `l`. -/
def matchDrawDatePrimary : Nat → List Char → Option (Nat × Nat)
  | 0, _ => none
  | _ + 1, [] => none
  | fuel + 1, c :: tl =>
    match matchDrawDateAt (c :: tl) with
    | some md => some md
    | none => matchDrawDatePrimary fuel tl

/-- `(\d{1,2}):` — day digits followed by a colon, greedy-then-backtrack.
Returns the value and consumed characters (colon included). -/
def dayColon : List Char → Option (Nat × List Char)
  | a :: b :: rest =>
    if a.isDigit then
      if b.isDigit then
        match rest with
        | ':' :: _ => some (digitsVal [a, b], [a, b, ':'])
        | _ => none
      else if b = ':' then some (digitsVal [a], [a, b])
      else none
    else none
  | _ => none

/-- One attempted match of `/Drawing Date:\s*(\d{1,2})\/(\d{1,2}):/` at an
occurrence of the literal; returns month, day and the whole matched text. -/
def matchDrawBlockAt (l : List Char) : Option (Nat × Nat × List Char) :=
  if ("Drawing Date:".data).isPrefixOf l then
    let rest0 := l.drop 13
    let ws := rest0.takeWhile jsWs
    let rest1 := rest0.drop ws.length
    match monthSlash rest1 with
    | some (m, mc, r2) =>
      match dayColon r2 with
      | some (d, dc) => some (m, d, "Drawing Date:".data ++ ws ++ mc ++ dc)
      | none => none
    | none => none
  else none

/-- Leftmost match of the drawing-block regex over `l`. -/
def matchDrawBlock : Nat → List Char → Option (Nat × Nat × List Char)
  | 0, _ => none
  | _ + 1, [] => none
  | fuel + 1, c :: tl =>
    match matchDrawBlockAt (c :: tl) with
    | some r => some r
    | none => matchDrawBlock fuel tl

/-- `(\d{1,2})\/` and then `(\d{1,2})\/(\d{4})`: one attempted match of
`/(\d{1,2}\/\d{1,2}\/\d{4})/` at the head of `l`; returns month, day, year
and the matched text. -/
def matchMDYAt (l : List Char) : Option (Nat × Nat × Nat × List Char) :=
  match monthSlash l with
  | some (m, mc, r1) =>
    match monthSlash r1 with
    | some (d, dc, r2) =>
      let ys := r2.take 4
      if ys.length = 4 ∧ ys.all Char.isDigit then
        some (m, d, digitsVal ys, mc ++ dc ++ ys)
      else none
    | none => none
  | none => none

/-- Leftmost match of the `MM/DD/YYYY` regex over `l`. -/
def matchMDY : Nat → List Char → Option (Nat × Nat × Nat × List Char)
  | 0, _ => none
  | _ + 1, [] => none
  | fuel + 1, c :: tl =>
    match matchMDYAt (c :: tl) with
    | some r => some r
    | none => matchMDY fuel tl

/-- `(\d{1,2})` followed by mandatory whitespace (`\s+`): two digits if
whitespace follows them, else one digit if whitespace follows it.  This is
exactly the backtracking behaviour: a rejected two-digit take leaves a digit
where `\s+` must match. -/
def groupThenWs : List Char → Option (Nat × List Char)
  | a :: b :: rest =>
    if a.isDigit then
      if b.isDigit then
        match rest with
        | c :: _ => if jsWs c then some (digitsVal [a, b], rest) else none
        | [] => none
      else if jsWs b then some (digitsVal [a], b :: rest)
      else none
    else none
  | _ => none

/-- `\s+`: at least one whitespace character, consumed maximally. -/
def wsPlus (l : List Char) : Option (List Char) :=
  match l with
  | c :: _ => if jsWs c then some (l.dropWhile jsWs) else none
  | [] => none

/-- One attempted match at the head of `l` of
`/(\d{1,2})\s+(\d{1,2})\s+(\d{1,2})\s+(\d{1,2})\s+(\d{1,2})\s+(\d{1,2})/`. -/
def sixAt (l : List Char) : Option (List Nat) :=
  match groupThenWs l with
  | some (n1, r1) =>
    match wsPlus r1 with
    | some r1w =>
      match groupThenWs r1w with
      | some (n2, r2) =>
        match wsPlus r2 with
        | some r2w =>
          match groupThenWs r2w with
          | some (n3, r3) =>
            match wsPlus r3 with
            | some r3w =>
              match groupThenWs r3w with
              | some (n4, r4) =>
                match wsPlus r4 with
                | some r4w =>
                  match groupThenWs r4w with
                  | some (n5, r5) =>
                    match wsPlus r5 with
                    | some r5w =>
                      match dayTail r5w with
                      | some (n6, _) => some [n1, n2, n3, n4, n5, n6]
                      | none => none
                    | none => none
                  | none => none
                | none => none
              | none => none
            | none => none
          | none => none
        | none => none
      | none => none
    | none => none
  | none => none

/-- Leftmost match of the six-numbers regex over `l`. -/
def sixScan : Nat → List Char → Option (List Nat)
  | 0, _ => none
  | _ + 1, [] => none
  | fuel + 1, c :: tl =>
    match sixAt (c :: tl) with
    | some ns => some ns
    | none => sixScan fuel tl

/-- The six captured numbers of the regex over `s`, as integers. -/
def sixNumbers (s : String) : Option (List Int) :=
  (sixScan s.data.length s.data).map (·.map Int.ofNat)

/-- One attempted match of the marker of
`/All\s*Star\s*Bonus[^0-9]*([0-9]+)/i` at the head of `l` (lowercased):
returns the remainder after `bonus`. -/
def bonusMarkerAt (l : List Char) : Option (List Char) :=
  if ("all".data).isPrefixOf l then
    let r1 := (l.drop 3).dropWhile jsWs
    if ("star".data).isPrefixOf r1 then
      let r2 := (r1.drop 4).dropWhile jsWs
      if ("bonus".data).isPrefixOf r2 then some (r2.drop 5) else none
    else none
  else none

/-- Find the leftmost complete marker occurrence. -/
def bonusMarkerScan : Nat → List Char → Option (List Char)
  | 0, _ => none
  | _ + 1, [] => none
  | fuel + 1, c :: tl =>
    match bonusMarkerAt (c :: tl) with
    | some rest => some rest
    | none => bonusMarkerScan fuel tl

/-- The `([0-9]+)` capture of the bonus regex over `s`: `[^0-9]*` reaches
the first digit run after the leftmost marker (if the marker has no digits
after it, no later marker has either, so the whole regex fails). -/
def bonusDigits (s : String) : Option Nat :=
  match bonusMarkerScan s.data.length (lowerChars s.data) with
  | some rest =>
    let ds := (rest.dropWhile (fun c => !c.isDigit)).takeWhile Char.isDigit
    if ds.isEmpty then none else some (digitsVal ds)
  | none => none


/-! ## `src/pages/api/lotto.ts` — the Iowa Lottery page parser -/

namespace Lotto

/-- Initial value of the `date` local of `parseIowaLottoAmericaHtml`. -/
def defaultDate : String := "Latest Lotto America draw"

/-- `if (!isNaN(m) && m >= 1) allStarBonus = m` applied to the leftmost
match of `/All\s*Star\s*Bonus[^0-9]*([0-9]+)/i` over `text`: update `b`
when a value `≥ 1` is captured, keep it otherwise. -/
def updateBonus (text : String) (b : Int) : Int :=
  match bonusDigits text with
  | some v => if 1 ≤ (v : Int) then (v : Int) else b
  | none => b

/-- The primary-strategy date extraction inside the `between` block
(lines 90–106): on a match, the formatted date (current-year assumption)
and the `date_parsed` step; on no match, the untouched default and no step. -/
def primaryDateOf (between : String) (currentYear : Int) : String × List DiagnosticStep :=
  match matchDrawDatePrimary between.data.length between.data with
  | some (m, d) =>
    (jsToLocale currentYear ((m : Int) - 1) (d : Int),
     [⟨"date_parsed", true, some ("Drawing Date: " ++ toString m ++ "/" ++ toString d)⟩])
  | none => (defaultDate, [])

/-- The primary-strategy numbers extraction inside the `between` block
(lines 108–142): span-scan the block; with ≥ 6 balls take the first five
and the sixth, then validate; on any failure reset to `([], 0)` exactly as
the source resets `mainNumbers`/`starBall`. -/
def primaryBalls (between : String) : (List Int × Int) × List DiagnosticStep :=
  let balls := spanScan between
  let cStep : DiagnosticStep := ⟨"between_block_numbers_count", true, some (toString balls.length)⟩
  if 6 ≤ balls.length then
    let mainNumbers := balls.take 5
    let starBall := balls.getD 5 0
    let rawStep : DiagnosticStep := ⟨"numbers_block_raw", true, some (joinSpace (balls.take 6))⟩
    if (decide (mainNumbers.length = 5) && mainNumbers.all int52) && int10 starBall then
      ((mainNumbers, starBall),
       [cStep, rawStep, ⟨"numbers_parsed", true, some (joinSpace mainNumbers ++ " | " ++ toString starBall)⟩])
    else
      (([], 0),
       [cStep, rawStep,
        ⟨"numbers_parsed", false,
         some ("invalid primary: main=" ++ joinComma mainNumbers ++ " star=" ++ toString starBall)⟩])
  else
    (([], 0), [cStep, ⟨"numbers_parsed", false, some "not enough numbers in primary block"⟩])

/-- The fallback-strategy date extraction (lines 161–199): first
`/Drawing Date:\s*(\d{1,2})\/(\d{1,2}):/` with the current-year assumption,
else `/(\d{1,2}\/\d{1,2}\/\d{4})/` with the matched year; on no match the
incoming date is kept and a failing step logged. -/
def fallbackDateOf (text : String) (currentYear : Int) (date0 : String) : String × DiagnosticStep :=
  match matchDrawBlock text.data.length text.data with
  | some (m, d, matched) =>
    (jsToLocale currentYear ((m : Int) - 1) (d : Int),
     ⟨"date_parsed", true, some (String.mk matched)⟩)
  | none =>
    match matchMDY text.data.length text.data with
    | some (m, d, y, matched) =>
      (jsToLocale (y : Int) ((m : Int) - 1) (d : Int),
       ⟨"date_parsed", true, some (String.mk matched)⟩)
    | none => (date0, ⟨"date_parsed", false, some "no date found"⟩)

/-- `a || b` on match results: the first operand when it matched, else the
second. -/
def firstSomeOf (a b : Option (List Int)) : Option (List Int) :=
  match a with
  | some ns => some ns
  | none => b

/-- Lines 160–256 of `parseIowaLottoAmericaHtml`: if the primary strategy
left no numbers, run the text-scan fallback strategy; then build the
record.  `date0`, `mn0`, `sb0`, `bonus0` are the current values of the
`date`, `mainNumbers`, `starBall`, `allStarBonus` locals. -/
def finishParse (text : String) (currentYear : Int) (date0 : String)
    (mn0 : List Int) (sb0 : Int) (bonus0 : Int) (steps : List DiagnosticStep) :
    Option LottoResult × List DiagnosticStep :=
  if mn0.length = 0 ∨ sb0 = 0 then
    let dateRes := fallbackDateOf text currentYear date0
    let searchRegion :=
      match strIndexOfFrom text "Winning Numbers" 0 with
      | some i => strSlice text i (i + 600)
      | none => text
    match firstSomeOf (sixNumbers searchRegion) (sixNumbers text) with
    | none =>
      (none, steps ++ [dateRes.2, ⟨"numbers_parsed", false, some "no 6-number pattern found (fallback)"⟩])
    | some allNums =>
      if allNums.length = 6 then
        let mainNumbers := allNums.take 5
        let starBall := allNums.getD 5 0
        if mainNumbers.all int52 && int10 starBall then
          let bonus := updateBonus text bonus0
          (some { date := dateRes.1, numbers := mainNumbers, starBall := starBall,
                  allStarBonus := bonus, winners := 0, jackpot := "Not available",
                  isLive := some true, debugInfo := none },
           steps ++ [dateRes.2,
                     ⟨"numbers_parsed", true, some (joinSpace mainNumbers ++ " | " ++ toString starBall)⟩,
                     ⟨"multiplier_parsed", true, some (toString bonus)⟩])
        else
          (none,
           steps ++ [dateRes.2,
                     ⟨"numbers_parsed", false,
                      some ("invalid ranges (fallback): main " ++ joinComma mainNumbers ++
                            " star " ++ toString starBall)⟩])
      else
        (none, steps ++ [dateRes.2, ⟨"numbers_parsed", false, some "parsed numbers length != 6 (fallback)"⟩])
  else
    (some { date := date0, numbers := mn0, starBall := sb0, allStarBonus := bonus0,
            winners := 0, jackpot := "Not available", isLive := some true, debugInfo := none },
     steps)

/-- Rendering of a JS index (`-1` for "not found") for the diagnostics. -/
def idxNum (o : Option Nat) : Int :=
  match o with
  | some i => (i : Int)
  | none => -1

/-- `parseIowaLottoAmericaHtml` of `src/pages/api/lotto.ts` (lines 67–257).
The returned pair is (the `LottoResult | null` result, the steps pushed via
`addStep` in order). `currentYear` is `new Date().getFullYear()`. -/
def parseIowaLottoAmericaHtml (html : String) (currentYear : Int) :
    Option LottoResult × List DiagnosticStep :=
  let raw := html
  let text := normalizeWs raw
  let steps0 : List DiagnosticStep :=
    [⟨"html_length", true, some (toString text.length)⟩,
     ⟨"html_sample", true, some (strSlice text 0 300)⟩]
  let idxWinning := strIndexOfFrom raw "Winning Numbers" 0
  let idxDrawing :=
    match idxWinning with
    | some i => strIndexOfFrom raw "Drawing Date:" i
    | none => none
  let idxBonus :=
    match idxDrawing with
    | some i => strIndexOfFrom raw "All Star Bonus" i
    | none => none
  match idxDrawing, idxBonus with
  | some iD, some iB =>
    let between := strSlice raw iD iB
    let sampleStep : DiagnosticStep := ⟨"between_block_sample", true, some (strSlice between 0 200)⟩
    let dateRes := primaryDateOf between currentYear
    let ballsRes := primaryBalls between
    let bonus := updateBonus text 1
    let bonusStep : DiagnosticStep := ⟨"multiplier_parsed", true, some (toString bonus)⟩
    finishParse text currentYear dateRes.1 ballsRes.1.1 ballsRes.1.2 bonus
      (steps0 ++ sampleStep :: dateRes.2 ++ ballsRes.2 ++ [bonusStep])
  | _, _ =>
    let missingStep : DiagnosticStep :=
      ⟨"primary_block_missing", false,
       some ("idxWinning=" ++ toString (idxNum idxWinning) ++
             ", idxDrawing=" ++ toString (idxNum idxDrawing) ++
             ", idxBonus=" ++ toString (idxNum idxBonus))⟩
    finishParse text currentYear defaultDate [] 0 1 (steps0 ++ [missingStep])

end Lotto


/-! ## `src/pages/api/lotto.ts` — scrape wrapper and request handler -/

namespace Lotto

/-- The outcome of the single `axios.get` call: a response (status code and
body), or a thrown transport error rendered by `String(error)`. -/
inductive FetchOutcome where
  | ok (status : Nat) (body : String)
  | err (msg : String)
deriving DecidableEq

/-- The hardcoded source URL of the Iowa Lottery page. -/
def iowaUrl : String := "https://ialottery.com/Pages/Games-Online/LottoAmericaWin.aspx"

/-- The diagnostics object built in the `catch` block (lines 300–306). -/
def errDiagnostics (msg : String) : ScrapeDiagnostics :=
  { steps := [⟨"http_error", false, some msg⟩,
              ⟨"fallback_used", true, some "Exception during scrape"⟩],
    counts := ⟨0, 0⟩, sourceUrl := iowaUrl, httpStatus := none,
    usedFallback := some true, errors := some [msg] }

/-- `fallbackResults.map((r, idx) => idx === 0 ? {...r, debugInfo: JSON.stringify(diagnostics)} : r)`. -/
def mapIdxFrom (i : Nat) (f : Nat → LottoResult → LottoResult) : List LottoResult → List LottoResult
  | [] => []
  | r :: rs => f i r :: mapIdxFrom (i + 1) f rs

/-- The `enrichedFallback` list: the fallback dataset with the serialised
diagnostics attached to the record at index 0. -/
def enrichedFallback (d : ScrapeDiagnostics) : List LottoResult :=
  mapIdxFrom 0
    (fun idx r => if idx = 0 then { r with debugInfo := some (jsonOfDiagnostics d) } else r)
    fallbackResults

/-- `scrapeLottoResultsWithDiagnostics` (lines 259–313).  The function also
assigns the module variable `lastDiagnostics := diagnostics` on every path;
the handler model below threads that from the returned diagnostics. -/
def scrapeLottoResultsWithDiagnostics (o : FetchOutcome) (currentYear : Int) :
    List LottoResult × ScrapeDiagnostics :=
  match o with
  | .ok status body =>
    let httpStep : DiagnosticStep := ⟨"http_get", decide (status = 200), some ("HTTP " ++ toString status)⟩
    let parsed := parseIowaLottoAmericaHtml body currentYear
    match parsed.1 with
    | none =>
      let diag : ScrapeDiagnostics :=
        { steps := httpStep :: parsed.2 ++
            [⟨"fallback_used", true, some "Parsed 0 complete results from Iowa Lottery page"⟩],
          counts := ⟨0, 0⟩, sourceUrl := iowaUrl, httpStatus := some status,
          usedFallback := some true, errors := some [] }
      (enrichedFallback diag, diag)
    | some r =>
      let diag : ScrapeDiagnostics :=
        { steps := httpStep :: parsed.2 ++ [⟨"success", true, some "1 result parsed"⟩],
          counts := ⟨1, 1⟩, sourceUrl := iowaUrl, httpStatus := some status,
          usedFallback := none, errors := some [] }
      ([r], diag)
  | .err msg =>
    let diag := errDiagnostics msg
    (enrichedFallback diag, diag)

/-- The module-level mutable state of `src/pages/api/lotto.ts`
(`cachedResults`, `lastFetchTime`, `lastDiagnostics`). -/
structure ServerState where
  cachedResults : List LottoResult
  lastFetchTime : Int
  lastDiagnostics : Option ScrapeDiagnostics
deriving DecidableEq

/-- State at process start. -/
def initialState : ServerState := ⟨[], 0, none⟩

/-- `const CACHE_DURATION = 3600000` (one hour in milliseconds). -/
def CACHE_DURATION : Int := 3600000

/-- The `cache` object of the debug envelope. -/
structure CacheInfo where
  used : Bool
  ageMs : Int
  lastFetchTime : Int
deriving DecidableEq

/-- The JSON body written by `res.json`/`res.end`. -/
inductive ResponseBody where
  | bare (results : List LottoResult)
  | envelope (results : List LottoResult) (diagnostics : ScrapeDiagnostics) (cache : CacheInfo)
  | empty
  | text (s : String)
deriving DecidableEq

structure HandlerResponse where
  status : Nat
  body : ResponseBody
deriving DecidableEq

/-- Result of one handler invocation: the HTTP response, the module state
after the invocation, and whether a fetch was attempted. -/
structure HandlerResult where
  resp : HandlerResponse
  state : ServerState
  fetched : Bool
deriving DecidableEq

inductive HttpMethod where
  | get
  | options
  | other (name : String)
deriving DecidableEq

/-- The `cache_used` diagnostic step. -/
def cacheStep (ageMs : Int) : DiagnosticStep :=
  ⟨"cache_used", true, some ("age " ++ toString ageMs ++ "ms")⟩

/-- `cachedResults[0]?.isLive === false`. -/
def headIsLiveFalse (rs : List LottoResult) : Bool :=
  match rs with
  | r :: _ => decide (r.isLive = some false)
  | [] => false

/-- The diagnostics served on a debug cache hit (lines 350–368): the prior
attempt's diagnostics with a `cache_used` step appended, or a synthetic
cache-only diagnostics object when no prior attempt is retained. -/
def cacheHitDiagnostics (s : ServerState) (ageMs : Int) : ScrapeDiagnostics :=
  match s.lastDiagnostics with
  | some ld => { ld with steps := ld.steps ++ [cacheStep ageMs] }
  | none =>
    { steps := [cacheStep ageMs],
      counts := ⟨s.cachedResults.length, s.cachedResults.length⟩,
      sourceUrl := "cache", httpStatus := none,
      usedFallback := some (headIsLiveFalse s.cachedResults), errors := none }

/-- The default-export `handler` (lines 326–420), with `Date.now()` as `t`,
the parsed truthiness of `req.query.debug` as `debug`, and the fetch
outcome as `o`.  The `try/catch` of the GET branch is not modelled
separately because `scrapeLottoResultsWithDiagnostics` never throws. -/
def handler (s : ServerState) (m : HttpMethod) (t : Int) (debug : Bool)
    (o : FetchOutcome) (currentYear : Int) : HandlerResult :=
  match m with
  | .options => ⟨⟨200, .empty⟩, s, false⟩
  | .other name => ⟨⟨405, .text ("Method " ++ name ++ " Not Allowed")⟩, s, false⟩
  | .get =>
    if 0 < s.cachedResults.length ∧ t - s.lastFetchTime < CACHE_DURATION then
      let ageMs := t - s.lastFetchTime
      if debug then
        ⟨⟨200, .envelope s.cachedResults (cacheHitDiagnostics s ageMs)
            ⟨true, ageMs, s.lastFetchTime⟩⟩, s, false⟩
      else
        ⟨⟨200, .bare s.cachedResults⟩, s, false⟩
    else
      let scraped := scrapeLottoResultsWithDiagnostics o currentYear
      let results := scraped.1
      let s' : ServerState :=
        if 0 < results.length then ⟨results, t, some scraped.2⟩
        else ⟨s.cachedResults, s.lastFetchTime, some scraped.2⟩
      let responseData := if 0 < results.length then results else fallbackResults
      if debug then
        ⟨⟨200, .envelope responseData scraped.2 ⟨false, 0, s'.lastFetchTime⟩⟩, s', true⟩
      else
        ⟨⟨200, .bare responseData⟩, s', true⟩

/-- The results list carried by a response body. -/
def ResponseBody.resultsList : ResponseBody → List LottoResult
  | .bare rs => rs
  | .envelope rs _ _ => rs
  | _ => []

/-- The diagnostics of a response body, when it is an envelope. -/
def ResponseBody.diagnosticsOf : ResponseBody → Option ScrapeDiagnostics
  | .envelope _ d _ => some d
  | _ => none

/-- The cache info of a response body, when it is an envelope. -/
def ResponseBody.cacheInfoOf : ResponseBody → Option CacheInfo
  | .envelope _ _ c => some c
  | _ => none

/-- Whether a response body is the debug envelope. -/
def ResponseBody.isEnvelope : ResponseBody → Bool
  | .envelope _ _ _ => true
  | _ => false

/-- The `debugInfo` of the first record of a results list. -/
def firstDebugInfo (rs : List LottoResult) : Option String :=
  match rs with
  | r :: _ => r.debugInfo
  | [] => none

/-- Whether a fetch outcome makes the scrape fall back: a transport error,
or a response whose body parses to zero valid records. -/
def scrapeFailed (o : FetchOutcome) (currentYear : Int) : Bool :=
  match o with
  | .err _ => true
  | .ok _ body => (parseIowaLottoAmericaHtml body currentYear).1.isNone

end Lotto


/-! ## `src/unnamed/part_000` and `src/unnamed/part_001` — card scraping

Both variants load the fetched HTML with cheerio and iterate the elements
matching `'.result-card, .drawing-result'`.  We model the queried document
abstractly: a `Card` holds the text contents cheerio would return for the
sub-selectors used on one card element, and a `CardDocument` holds the
card list together with the document's table rows (which the source never
queries — the table field exists so that properties about strategies the
spec describes over the same document can be stated). -/

structure Card where
  /-- `$(element).find('.date, .result-date').text()` -/
  dateText : String
  /-- texts of `$(element).find('.number:not(.star-ball), .ball:not(.star-ball)')` in order -/
  numberCells : List String
  /-- text of `$(element).find('.number.star-ball, .ball.star-ball, .star-ball').first()`, if any -/
  starBallCell : Option String
  /-- text of `$(element).find('.multiplier, .bonus').first()`, if any -/
  bonusCell : Option String
  /-- text of `$(element).find('.jackpot-amount, .jackpot').first()`, if any -/
  jackpotCell : Option String
deriving DecidableEq

structure CardDocument where
  cards : List Card
  tableRows : List (List String)
deriving DecidableEq

namespace Part000

/-- The per-card extraction and acceptance check of `scrapeLottoResults`
in `src/unnamed/part_000` (lines 64–122): a record is pushed iff the date
text is non-empty, exactly 5 main numbers parsed, and the star ball is
positive — with no upper-range validation. -/
def processCard (c : Card) : Option LottoResult :=
  let dateText := jsTrim c.dateText
  let mainNumbers := (c.numberCells.take 5).filterMap (fun s => parseIntJs (jsTrim s))
  let starBall : Int :=
    match c.starBallCell with
    | some s => (parseIntJs (jsTrim s)).getD 0
    | none => 0
  let allStarBonus : Int :=
    match c.bonusCell with
    | some s =>
      match firstDigitRun (jsTrim s) with
      | some n => (n : Int)
      | none => 1
    | none => 1
  let jackpot :=
    match c.jackpotCell with
    | some s => jsTrim s
    | none => "Not available"
  if dateText ≠ "" ∧ mainNumbers.length = 5 ∧ 0 < starBall then
    some { date := dateText, numbers := mainNumbers, starBall := starBall,
           allStarBonus := allStarBonus, winners := 25000, jackpot := jackpot,
           isLive := some true, debugInfo := none }
  else none

/-- The card loop of `scrapeLottoResults`: results pushed in card order. -/
def scrapeLottoResults (cards : List Card) : List LottoResult :=
  cards.filterMap processCard

end Part000

namespace Part001

/-- The per-card extraction of `scrapeLottoResultsWithDiagnostics` in
`src/unnamed/part_001` (lines 101–168): identical to `part_000` plus the
diagnostic steps; `i` is the card index for the `result_pushed` detail. -/
def processCardSteps (i : Nat) (c : Card) : Option LottoResult × List DiagnosticStep :=
  let dateText := jsTrim c.dateText
  let dateSteps : List DiagnosticStep :=
    if dateText ≠ "" then [⟨"date_found", true, some dateText⟩] else []
  let mainNumbers := (c.numberCells.take 5).filterMap (fun s => parseIntJs (jsTrim s))
  let numStep : DiagnosticStep :=
    ⟨"main_numbers", decide (mainNumbers.length = 5), some ("found " ++ toString mainNumbers.length)⟩
  let starBall : Int :=
    match c.starBallCell with
    | some s => (parseIntJs (jsTrim s)).getD 0
    | none => 0
  let starStep : DiagnosticStep := ⟨"star_ball", decide (0 < starBall), some (toString starBall)⟩
  let allStarBonus : Int :=
    match c.bonusCell with
    | some s =>
      match firstDigitRun (jsTrim s) with
      | some n => (n : Int)
      | none => 1
    | none => 1
  let bonusStep : DiagnosticStep := ⟨"bonus", decide (1 ≤ allStarBonus), some ("x" ++ toString allStarBonus)⟩
  let jackpot :=
    match c.jackpotCell with
    | some s => jsTrim s
    | none => "Not available"
  let jackpotStep : DiagnosticStep := ⟨"jackpot", decide (jackpot ≠ "Not available"), some jackpot⟩
  let baseSteps := dateSteps ++ [numStep, starStep, bonusStep, jackpotStep]
  if dateText ≠ "" ∧ mainNumbers.length = 5 ∧ 0 < starBall then
    (some { date := dateText, numbers := mainNumbers, starBall := starBall,
            allStarBonus := allStarBonus, winners := 25000, jackpot := jackpot,
            isLive := some true, debugInfo := none },
     baseSteps ++ [⟨"result_pushed", true, some ("index " ++ toString i)⟩])
  else (none, baseSteps)

/-- The `cards.each` loop, threading the card index. -/
def parseCardsAux (i : Nat) : List Card → List LottoResult × List DiagnosticStep
  | [] => ([], [])
  | c :: cs =>
    let here := processCardSteps i c
    let rest := parseCardsAux (i + 1) cs
    (here.1.toList ++ rest.1, here.2 ++ rest.2)

/-- Source URL of the `part_001` variant. -/
def lottoUsaUrl : String := "https://www.lotteryusa.com/lotto-america/"

/-- Lines 95–180 of `scrapeLottoResultsWithDiagnostics` in
`src/unnamed/part_001`: the card strategy on the fetched document, and the
direct fall-through to the fallback dataset when it yields no results.
(The `start_scrape`/`http_get` steps of the fetch phase precede the steps
modelled here and carry no information about the parse.) -/
def scrapeParse (doc : CardDocument) : List LottoResult × ScrapeDiagnostics :=
  let cards := doc.cards
  let selStep : DiagnosticStep :=
    ⟨"primary_selectors", decide (0 < cards.length), some (toString cards.length ++ " cards found")⟩
  let parsed := parseCardsAux 0 cards
  if parsed.1.length = 0 then
    (fallbackResults,
     { steps := selStep :: parsed.2 ++
         [⟨"fallback_used", true, some "Primary selectors returned no results"⟩],
       counts := ⟨cards.length, 0⟩, sourceUrl := lottoUsaUrl, httpStatus := none,
       usedFallback := some true, errors := some [] })
  else
    (parsed.1,
     { steps := selStep :: parsed.2 ++
         [⟨"success", true, some (toString parsed.1.length ++ " results scraped")⟩],
       counts := ⟨cards.length, parsed.1.length⟩, sourceUrl := lottoUsaUrl, httpStatus := none,
       usedFallback := none, errors := some [] })

/-- Whether the trimmed text of a cell is purely numeric (non-empty, all
decimal digits). -/
def numericCell (s : String) : Option Int :=
  let t := jsTrim s
  if t ≠ "" ∧ t.data.all Char.isDigit then parseIntJs t else none

/-- Modelled from the spec: the tabular strategy the specification
describes ("iterate table rows (skip header row), collect cells whose
trimmed text is purely numeric, and if ≥6 numeric cells exist, treat the
first 5 as main numbers, the 6th as star ball, and an optional 7th as the
multiplier; date comes from the first cell"), with the uniform range
validation the spec requires.  No implementation of this strategy exists
anywhere under `src/`; this definition exists only to state what the
claimed cascade would have produced. -/
def tabularRow (cells : List String) : Option LottoResult :=
  let numeric := cells.filterMap numericCell
  if 6 ≤ numeric.length then
    let mainNumbers := numeric.take 5
    let starBall := numeric.getD 5 0
    let bonus := numeric.getD 6 1
    let date := jsTrim (cells.headD "")
    if mainNumbers.all int52 && int10 starBall then
      some { date := date, numbers := mainNumbers, starBall := starBall,
             allStarBonus := bonus, winners := 0, jackpot := "Not available",
             isLive := some true, debugInfo := none }
    else none
  else none

/-- Modelled from the spec: the tabular strategy over a document's table
rows, skipping the header row. -/
def tabularStrategy (rows : List (List String)) : List LottoResult :=
  match rows with
  | [] => []
  | _header :: body => body.filterMap tabularRow

end Part001

/-! ## `src/unnamed/part_002` — the open-data API variant -/

namespace Part002

/-- One record of the JSON array returned by the open-data API; absent
string fields are `""` (JS `item.x || ''`). -/
structure ApiItem where
  draw_date : String
  winning_numbers : String
  multiplier : String
deriving DecidableEq

/-- JavaScript `s.split(' ').filter(Boolean)`. -/
def splitSpaces (s : String) : List String :=
  ((s.data.foldr
      (fun c acc =>
        match acc with
        | h :: t => if c = ' ' then [] :: h :: t else (c :: h) :: t
        | [] => [[c]])
      [[]]).map String.mk).filter (· ≠ "")

/-- The display date of one item (lines 111–121): the formatted date when
`new Date(rawDate)` is valid, the raw date when invalid but present,
`"Unknown date"` when absent.  `dateFn` abstracts `new Date` +
`toLocaleDateString` (genuine JS date-string parsing; `none` models an
invalid date). -/
def apiDate (dateFn : String → Option String) (rawDate : String) : String :=
  if rawDate = "" then "Unknown date"
  else
    match dateFn rawDate with
    | some s => s
    | none => rawDate

/-- Main numbers of one item (lines 126–135): the first five
whitespace-split tokens that parse, provided at least 6 tokens exist. -/
def apiNumbers (parts : List String) : List Int :=
  if 6 ≤ parts.length then (parts.take 5).filterMap parseIntJs else []

/-- Star ball of one item (lines 136–139): the parsed 6th token, or 0. -/
def apiStar (parts : List String) : Int :=
  if 6 ≤ parts.length then (parseIntJs (parts.getD 5 "")).getD 0 else 0

/-- All-star bonus of one item (lines 144–145): `parseInt(multiplier) || 1`
when the field is present, else 1. -/
def apiBonus (multiplier : String) : Int :=
  if multiplier = "" then 1
  else
    match parseIntJs multiplier with
    | some n => if n = 0 then 1 else n
    | none => 1

/-- The per-item processing of `scrapeLottoResultsWithDiagnostics` in
`src/unnamed/part_002` (lines 108–166).  Acceptance requires a non-empty
display date, exactly 5 parsed numbers, and a positive star ball — with no
upper-range validation. -/
def parseApiItem (dateFn : String → Option String) (item : ApiItem) : Option LottoResult :=
  let date := apiDate dateFn item.draw_date
  let parts := splitSpaces item.winning_numbers
  if date ≠ "" ∧ (apiNumbers parts).length = 5 ∧ 0 < apiStar parts then
    some { date := date, numbers := apiNumbers parts, starBall := apiStar parts,
           allStarBonus := apiBonus item.multiplier, winners := 0,
           jackpot := "Not available", isLive := some true, debugInfo := none }
  else none

/-- The item loop over the (already date-sorted) array; the sort of lines
100–104 only permutes the input and is left to the environment. -/
def parseApiResults (dateFn : String → Option String) (items : List ApiItem) : List LottoResult :=
  items.filterMap (parseApiItem dateFn)

end Part002

/-! ## `src/pages/index.tsx`, second bundled document — the earliest
scraper variant (lottoamerica.com)

Its card loop pushes one record per `div.result-card` element with no
acceptance check at all: `parseInt` results are pushed unchecked, so any
field can be `NaN` (modelled as `none`) and `numbers` can have fewer than
5 entries.  Because its records can carry `NaN`, they get their own record
type. -/

structure RawCard where
  /-- `$(element).find('div.result-date').text()` -/
  dateText : String
  /-- texts of `$(element).find('div.result-number')` in order -/
  numberCells : List String
  /-- `$(element).find('div.result-winners span').text()` (`""` when absent) -/
  winnersText : String
  /-- `$(element).find('div.result-jackpot').text()` -/
  jackpotText : String
deriving DecidableEq

structure RawResult where
  date : String
  numbers : List (Option Int)
  starBall : Option Int
  allStarBonus : Option Int
  winners : Option Int
  jackpot : String
deriving DecidableEq

namespace PartIndex

/-- `s.replace(/,/g, '')`. -/
def stripCommas (s : String) : String := String.mk (s.data.filter (fun c => c ≠ ','))

/-- The per-card extraction of the `index.tsx`-bundled `scrapeLottoResults`
(lines 137–170): every matched card yields a record, unconditionally. -/
def processCard (c : RawCard) : RawResult :=
  { date := jsTrim c.dateText,
    numbers := (c.numberCells.take 5).map (fun s => parseIntJs (jsTrim s)),
    starBall := parseIntJs (jsTrim (c.numberCells.getD 5 "")),
    allStarBonus := parseIntJs (jsTrim (c.numberCells.getD 6 "")),
    winners := parseIntJs (stripCommas (jsTrim c.winnersText)),
    jackpot := jsTrim c.jackpotText }

/-- The card loop: one record per card, nothing discarded. -/
def scrapeLottoResults (cards : List RawCard) : List RawResult :=
  cards.map processCard

end PartIndex


/-! ## General lemmas -/

theorem lastOfAppendOne {α : Type} (l : List α) (a : α) : (l ++ [a]).getLast? = some a := by
  rw [List.getLast?_append_cons]
  rfl

theorem lastLabelOfConsAppend (a : DiagnosticStep) (l : List DiagnosticStep)
    (b : DiagnosticStep) :
    ((a :: (l ++ [b])).getLast?).map (fun st => st.label) = some b.label := by
  rw [← List.cons_append, lastOfAppendOne]
  rfl

theorem int52_iff (n : Int) : int52 n = true ↔ (1 ≤ n ∧ n ≤ 52) := by
  simp [int52]

theorem int10_iff (n : Int) : int10 n = true ↔ (1 ≤ n ∧ n ≤ 10) := by
  simp [int10]

theorem updateBonus_ge (t : String) (b : Int) (hb : 1 ≤ b) : 1 ≤ Lotto.updateBonus t b := by
  unfold Lotto.updateBonus
  cases h : bonusDigits t with
  | none => exact hb
  | some v =>
    simp only []
    split
    · assumption
    · exact hb

theorem primaryBalls_cases (between : String) :
    (Lotto.primaryBalls between).1 = ([], 0) ∨
    ((Lotto.primaryBalls between).1.1.length = 5 ∧
      (Lotto.primaryBalls between).1.1.all int52 = true ∧
      int10 (Lotto.primaryBalls between).1.2 = true) := by
  unfold Lotto.primaryBalls
  simp only []
  split
  · split
    · rename_i hcond
      right
      have h1 := (Bool.and_eq_true _ _).mp hcond
      have h2 := (Bool.and_eq_true _ _).mp h1.1
      exact ⟨of_decide_eq_true h2.1, h2.2, h1.2⟩
    · left; rfl
  · left; rfl

theorem finishParse_some (text : String) (y : Int) (d0 : String) (mn0 : List Int)
    (sb0 : Int) (b0 : Int) (steps : List DiagnosticStep) (r : LottoResult)
    (st : List DiagnosticStep)
    (hprim : (mn0 = [] ∧ sb0 = 0) ∨
      (mn0.length = 5 ∧ mn0.all int52 = true ∧ int10 sb0 = true))
    (hb : 1 ≤ b0)
    (h : Lotto.finishParse text y d0 mn0 sb0 b0 steps = (some r, st)) :
    r.numbers.length = 5 ∧ r.numbers.all int52 = true ∧ int10 r.starBall = true ∧
      1 ≤ r.allStarBonus := by
  unfold Lotto.finishParse at h
  simp only [] at h
  split at h
  · -- the fallback strategy ran
    split at h
    · exact absurd (congrArg Prod.fst h) (by simp)
    · rename_i allNums heq
      split at h
      · rename_i hlen
        split at h
        · rename_i hrange
          obtain rfl := (Option.some.inj (congrArg Prod.fst h)).symm
          have hparts := (Bool.and_eq_true _ _).mp hrange
          refine ⟨?_, hparts.1, hparts.2, updateBonus_ge text b0 hb⟩
          simp [List.length_take, hlen]
        · exact absurd (congrArg Prod.fst h) (by simp)
      · exact absurd (congrArg Prod.fst h) (by simp)
  · -- the primary strategy's numbers were kept
    rename_i hcond
    obtain rfl := (Option.some.inj (congrArg Prod.fst h)).symm
    rcases hprim with ⟨hmn, _⟩ | ⟨h5, hall, hstar⟩
    · exact absurd (Or.inl (by simp [hmn])) hcond
    · exact ⟨h5, hall, hstar, hb⟩

theorem parseIowa_some_valid (html : String) (y : Int) (r : LottoResult)
    (st : List DiagnosticStep)
    (h : Lotto.parseIowaLottoAmericaHtml html y = (some r, st)) :
    r.numbers.length = 5 ∧ r.numbers.all int52 = true ∧ int10 r.starBall = true ∧
      1 ≤ r.allStarBonus := by
  unfold Lotto.parseIowaLottoAmericaHtml at h
  simp only [] at h
  split at h
  · rename_i iD iB hD hB
    refine finishParse_some _ _ _ _ _ _ _ _ _ ?_ ?_ h
    · rcases primaryBalls_cases (strSlice html iD iB) with heq | hval
      · left; exact ⟨congrArg Prod.fst heq, congrArg Prod.snd heq⟩
      · right; exact hval
    · exact updateBonus_ge _ 1 le_rfl
  · exact finishParse_some _ _ _ _ _ _ _ _ _ (Or.inl ⟨rfl, rfl⟩) le_rfl h

/-! ## Acceptance guarantees of the card and API strategies -/

theorem part000_accepted (cards : List Card) (r : LottoResult)
    (hr : r ∈ Part000.scrapeLottoResults cards) :
    r.date ≠ "" ∧ r.numbers.length = 5 ∧ 1 ≤ r.starBall := by
  unfold Part000.scrapeLottoResults at hr
  rw [List.mem_filterMap] at hr
  obtain ⟨c, _, hc⟩ := hr
  unfold Part000.processCard at hc
  simp only [] at hc
  split at hc
  · rename_i hcond
    obtain rfl := (Option.some.inj hc).symm
    exact ⟨hcond.1, hcond.2.1, hcond.2.2⟩
  · exact absurd hc (by simp)

theorem part002_accepted (dateFn : String → Option String) (items : List Part002.ApiItem)
    (r : LottoResult) (hr : r ∈ Part002.parseApiResults dateFn items) :
    r.date ≠ "" ∧ r.numbers.length = 5 ∧ 1 ≤ r.starBall := by
  unfold Part002.parseApiResults at hr
  rw [List.mem_filterMap] at hr
  obtain ⟨item, _, hc⟩ := hr
  unfold Part002.parseApiItem at hc
  simp only [] at hc
  split at hc
  · rename_i hcond
    obtain rfl := (Option.some.inj hc).symm
    exact ⟨hcond.1, hcond.2.1, hcond.2.2⟩
  · exact absurd hc (by simp)

theorem part001_accepted (i : Nat) (cards : List Card) (r : LottoResult)
    (hr : r ∈ (Part001.parseCardsAux i cards).1) :
    r.date ≠ "" ∧ r.numbers.length = 5 ∧ 1 ≤ r.starBall := by
  induction cards generalizing i with
  | nil =>
    unfold Part001.parseCardsAux at hr
    exact absurd hr (List.not_mem_nil r)
  | cons c cs ih =>
    unfold Part001.parseCardsAux at hr
    simp only [] at hr
    rw [List.mem_append] at hr
    rcases hr with hr | hr
    · unfold Part001.processCardSteps at hr
      simp only [] at hr
      split at hr
      · rename_i hcond
        simp only [Option.toList_some, List.mem_singleton] at hr
        subst hr
        exact ⟨hcond.1, hcond.2.1, hcond.2.2⟩
      · simp only [Option.toList_none] at hr
        exact absurd hr (List.not_mem_nil r)
    · exact ih (i + 1) hr

/-- Claim C1, counterexample: the card strategy of `src/unnamed/part_000`
accepts this card — date text `"10/31/2025"`, number cells 60–64, star-ball
cell `"99"`, bonus cell `"0x"` — and emits a record whose main numbers
exceed 52, whose star ball exceeds 10, and whose all-star bonus is 0,
refuting "numbers each in [1,52], starBall in [1,10], allStarBonus ≥ 1 for
every accepted record of any parsing strategy". -/
theorem claim1_counterexample :
    (Part000.scrapeLottoResults
        [⟨"10/31/2025", ["60", "61", "62", "63", "64"], some "99", some "0x", none⟩]).length = 1 ∧
    ¬ (∀ r ∈ Part000.scrapeLottoResults
          [⟨"10/31/2025", ["60", "61", "62", "63", "64"], some "99", some "0x", none⟩],
        (∀ n ∈ r.numbers, 1 ≤ n ∧ n ≤ 52) ∧ (1 ≤ r.starBall ∧ r.starBall ≤ 10) ∧
          1 ≤ r.allStarBonus) := by
  constructor
  · rfl
  · decide

/-- Claim C1, amended: every record accepted by the acceptance-checked
strategies — the card loops of `part_000` and `part_001` and the open-data
loop of `part_002` — has exactly 5 parsed main numbers, a non-empty date
and a star ball ≥ 1; the upper-range checks (numbers ≤ 52, star ball ≤ 10)
and the bonus ≥ 1 guarantee hold only for the Iowa-page parser of
`src/pages/api/lotto.ts`; and the earliest bundled variant (second document
of `src/pages/index.tsx`) applies no validation at all: it emits one record
per matched card element unconditionally, so even the 5-numbers/date/star
floor fails there. -/
theorem claim1_amended_validation :
    (∀ (cards : List Card) (r : LottoResult), r ∈ Part000.scrapeLottoResults cards →
      r.date ≠ "" ∧ r.numbers.length = 5 ∧ 1 ≤ r.starBall) ∧
    (∀ (i : Nat) (cards : List Card) (r : LottoResult),
      r ∈ (Part001.parseCardsAux i cards).1 →
      r.date ≠ "" ∧ r.numbers.length = 5 ∧ 1 ≤ r.starBall) ∧
    (∀ (dateFn : String → Option String) (items : List Part002.ApiItem) (r : LottoResult),
      r ∈ Part002.parseApiResults dateFn items →
      r.date ≠ "" ∧ r.numbers.length = 5 ∧ 1 ≤ r.starBall) ∧
    (∀ (html : String) (y : Int) (r : LottoResult) (st : List DiagnosticStep),
      Lotto.parseIowaLottoAmericaHtml html y = (some r, st) →
      r.numbers.length = 5 ∧ (∀ n ∈ r.numbers, 1 ≤ n ∧ n ≤ 52) ∧
        (1 ≤ r.starBall ∧ r.starBall ≤ 10) ∧ 1 ≤ r.allStarBonus) ∧
    (∀ cards : List RawCard,
      (PartIndex.scrapeLottoResults cards).length = cards.length ∧
      ∀ c ∈ cards, PartIndex.processCard c ∈ PartIndex.scrapeLottoResults cards) := by
  refine ⟨part000_accepted, part001_accepted, part002_accepted, ?_, ?_⟩
  · intro html y r st h
    obtain ⟨h5, hall, hstar, hbonus⟩ := parseIowa_some_valid html y r st h
    refine ⟨h5, ?_, (int10_iff _).mp hstar, hbonus⟩
    intro n hn
    exact (int52_iff n).mp (List.all_eq_true.mp hall n hn)
  · intro cards
    exact ⟨List.length_map cards PartIndex.processCard,
           fun c hc => List.mem_map_of_mem PartIndex.processCard hc⟩

/-- Witness for the amended C1 theorem: a concrete accepted card of the
checked strategies, and a concrete deficient card (two number cells, empty
date) that the unchecked `index.tsx` variant nevertheless emits. -/
theorem claim1_amended_validation_witness :
    ({ date := "10/29/2025", numbers := [21, 33, 40, 42, 50], starBall := 5,
       allStarBonus := 2, winners := 25000, jackpot := "Not available",
       isLive := some true, debugInfo := none } : LottoResult) ∈
      Part000.scrapeLottoResults
        [⟨"10/29/2025", ["21", "33", "40", "42", "50"], some "5", some "2x", none⟩] ∧
    (({ date := "10/29/2025", numbers := [21, 33, 40, 42, 50], starBall := 5,
        allStarBonus := 2, winners := 25000, jackpot := "Not available",
        isLive := some true, debugInfo := none } : LottoResult).date ≠ "" ∧
      ({ date := "10/29/2025", numbers := [21, 33, 40, 42, 50], starBall := 5,
         allStarBonus := 2, winners := 25000, jackpot := "Not available",
         isLive := some true, debugInfo := none } : LottoResult).numbers.length = 5 ∧
      1 ≤ ({ date := "10/29/2025", numbers := [21, 33, 40, 42, 50], starBall := 5,
             allStarBonus := 2, winners := 25000, jackpot := "Not available",
             isLive := some true, debugInfo := none } : LottoResult).starBall) ∧
    ({ date := "10/29/2025", numbers := [21, 33, 40, 42, 50], starBall := 5,
       allStarBonus := 2, winners := 25000, jackpot := "Not available",
       isLive := some true, debugInfo := none } : LottoResult).date ≠ "" ∧
    (PartIndex.scrapeLottoResults [⟨"", ["7", "8"], "", ""⟩]).length = 1 ∧
    (PartIndex.processCard ⟨"", ["7", "8"], "", ""⟩).numbers.length = 2 ∧
    (PartIndex.processCard ⟨"", ["7", "8"], "", ""⟩).date = "" :=
  ⟨by decide,
   claim1_amended_validation.1
     [⟨"10/29/2025", ["21", "33", "40", "42", "50"], some "5", some "2x", none⟩]
     _ (by decide),
   (claim1_amended_validation.2.1 0
     [⟨"10/29/2025", ["21", "33", "40", "42", "50"], some "5", some "2x", none⟩]
     _ (by decide)).1,
   (claim1_amended_validation.2.2.2.2 [⟨"", ["7", "8"], "", ""⟩]).1,
   by decide, by decide⟩

/-! ## The end-to-end parse scenario -/

/-- A source body of the shape the C4 scenario describes: the
`Winning Numbers` heading of the Iowa page, a `Drawing Date: 10/29` marker,
six `span.number` tokens 21, 33, 40, 42, 50, 5, and an
`All Star Bonus: 2x` marker. -/
def scenarioHtml : String :=
  "<html><body><h2>Winning Numbers</h2><p>Drawing Date: 10/29</p> <div><span class=\"number\">21</span> <span class=\"number\">33</span> <span class=\"number\">40</span> <span class=\"number\">42</span> <span class=\"number\">50</span> <span class=\"number\">5</span></div> <p>All Star Bonus: 2x</p></body></html>"

set_option maxRecDepth 100000 in
theorem parseIowa_scenario (y : Int) :
    (Lotto.parseIowaLottoAmericaHtml scenarioHtml y).1 =
      some { date := jsToLocale y 9 29, numbers := [21, 33, 40, 42, 50], starBall := 5,
             allStarBonus := 2, winners := 0, jackpot := "Not available",
             isLive := some true, debugInfo := none } := rfl

/-- Claim C4: on a source body containing the `Drawing Date: 10/29` marker
through the `All Star Bonus: 2x` marker with six span-number tokens
21, 33, 40, 42, 50, 5, the parser yields exactly one record with the
long-form date for October 29 of the current year, numbers
`[21,33,40,42,50]`, star ball 5 and bonus 2.  The weekday of the formatted
date follows the current year; the hypothesis states that October 29 of
the current year formats as a Wednesday (true of 2025, the year the
scenario's data is from). -/
theorem claim4_scenario (y : Int)
    (h : jsToLocale y 9 29 = "Wednesday, October 29, " ++ toString y) :
    (Lotto.parseIowaLottoAmericaHtml scenarioHtml y).1 =
      some { date := "Wednesday, October 29, " ++ toString y,
             numbers := [21, 33, 40, 42, 50], starBall := 5, allStarBonus := 2,
             winners := 0, jackpot := "Not available", isLive := some true,
             debugInfo := none } := by
  rw [← h]
  exact parseIowa_scenario y

/-- Witness for C4 at the concrete current year 2025. -/
theorem claim4_scenario_witness :
    (Lotto.parseIowaLottoAmericaHtml scenarioHtml 2025).1 =
      some { date := "Wednesday, October 29, " ++ toString (2025 : Int),
             numbers := [21, 33, 40, 42, 50], starBall := 5, allStarBonus := 2,
             winners := 0, jackpot := "Not available", isLive := some true,
             debugInfo := none } :=
  claim4_scenario 2025 (by decide)

/-- Claim C8: the parser is a pure function of its input document (and of
the current year, which the source reads from the ambient clock): parsing
the same raw document twice yields identical results and identical
diagnostic steps. -/
theorem claim8_parser_deterministic (html : String) (y : Int) :
    Lotto.parseIowaLottoAmericaHtml html y = Lotto.parseIowaLottoAmericaHtml html y := rfl

/-! ## Handler-level lemmas -/

theorem enrichedFallback_eq (d : ScrapeDiagnostics) :
    Lotto.enrichedFallback d =
      { date := "Wednesday, October 29, 2025", numbers := [21, 33, 40, 42, 50],
        starBall := 5, allStarBonus := 2, winners := 35560, jackpot := "$5,680,000",
        isLive := some false, debugInfo := some (jsonOfDiagnostics d) } ::
      fallbackResults.tail := rfl

theorem enrichedFallback_length (d : ScrapeDiagnostics) :
    (Lotto.enrichedFallback d).length = 3 := rfl

theorem enrichedFallback_isLive (d : ScrapeDiagnostics) :
    ∀ r ∈ Lotto.enrichedFallback d, r.isLive = some false := by
  intro r hr
  rw [enrichedFallback_eq] at hr
  rcases List.mem_cons.mp hr with rfl | hr
  · rfl
  · have htail : fallbackResults.tail =
        [{ date := "Monday, October 27, 2025", numbers := [12, 21, 27, 35, 39],
           starBall := 2, allStarBonus := 4, winners := 29269,
           jackpot := "$5,530,000", isLive := some false, debugInfo := none },
         { date := "Saturday, October 25, 2025", numbers := [2, 31, 33, 35, 50],
           starBall := 7, allStarBonus := 2, winners := 48122,
           jackpot := "$5,400,000", isLive := some false, debugInfo := none }] := rfl
    rw [htail] at hr
    rcases List.mem_cons.mp hr with rfl | hr
    · rfl
    · rcases List.mem_cons.mp hr with rfl | hr
      · rfl
      · exact absurd hr (List.not_mem_nil r)

theorem enrichedFallback_ne_fallback (d : ScrapeDiagnostics) :
    Lotto.enrichedFallback d ≠ fallbackResults := by
  intro h
  have h0 : Lotto.firstDebugInfo (Lotto.enrichedFallback d) =
      Lotto.firstDebugInfo fallbackResults := congrArg _ h
  rw [enrichedFallback_eq] at h0
  simp [Lotto.firstDebugInfo, fallbackResults] at h0

theorem scrape_failed_eq (o : Lotto.FetchOutcome) (y : Int)
    (hfail : Lotto.scrapeFailed o y = true) :
    (Lotto.scrapeLottoResultsWithDiagnostics o y).1 =
      Lotto.enrichedFallback (Lotto.scrapeLottoResultsWithDiagnostics o y).2 := by
  cases o with
  | err msg => rfl
  | ok status body =>
    unfold Lotto.scrapeFailed at hfail
    simp only [] at hfail
    unfold Lotto.scrapeLottoResultsWithDiagnostics
    simp only []
    split
    · rfl
    · rename_i r heq
      rw [heq] at hfail
      simp at hfail

theorem scrape_nonempty (o : Lotto.FetchOutcome) (y : Int) :
    0 < (Lotto.scrapeLottoResultsWithDiagnostics o y).1.length := by
  cases o with
  | err msg => exact Nat.succ_pos 2
  | ok status body =>
    unfold Lotto.scrapeLottoResultsWithDiagnostics
    simp only []
    split
    · exact Nat.succ_pos 2
    · exact Nat.succ_pos 0

/-- The cache-hit branch of the handler, in one equation. -/
theorem handler_cacheHit (s : Lotto.ServerState) (t : Int) (debug : Bool)
    (o : Lotto.FetchOutcome) (y : Int)
    (hne : s.cachedResults ≠ []) (hfresh : t - s.lastFetchTime < Lotto.CACHE_DURATION) :
    Lotto.handler s .get t debug o y =
      ⟨⟨200, if debug then
          .envelope s.cachedResults (Lotto.cacheHitDiagnostics s (t - s.lastFetchTime))
            ⟨true, t - s.lastFetchTime, s.lastFetchTime⟩
        else .bare s.cachedResults⟩, s, false⟩ := by
  unfold Lotto.handler
  simp only []
  rw [if_pos ⟨List.length_pos.mpr hne, hfresh⟩]
  by_cases hd : debug
  · simp [hd]
  · simp [hd]

/-- The fetch branch of the handler on a failed scrape, in one equation. -/
theorem handler_fetchFailed (s : Lotto.ServerState) (t : Int) (debug : Bool)
    (o : Lotto.FetchOutcome) (y : Int)
    (hstale : ¬(0 < s.cachedResults.length ∧ t - s.lastFetchTime < Lotto.CACHE_DURATION))
    (hfail : Lotto.scrapeFailed o y = true) :
    Lotto.handler s .get t debug o y =
      ⟨⟨200, if debug then
          .envelope (Lotto.enrichedFallback (Lotto.scrapeLottoResultsWithDiagnostics o y).2)
            (Lotto.scrapeLottoResultsWithDiagnostics o y).2 ⟨false, 0, t⟩
        else .bare (Lotto.enrichedFallback (Lotto.scrapeLottoResultsWithDiagnostics o y).2)⟩,
       ⟨Lotto.enrichedFallback (Lotto.scrapeLottoResultsWithDiagnostics o y).2, t,
        some (Lotto.scrapeLottoResultsWithDiagnostics o y).2⟩, true⟩ := by
  unfold Lotto.handler
  simp only []
  rw [if_neg hstale]
  have hres := scrape_failed_eq o y hfail
  have hpos : 0 < (Lotto.scrapeLottoResultsWithDiagnostics o y).1.length :=
    scrape_nonempty o y
  rw [hres] at hpos ⊢
  rw [if_pos hpos, if_pos hpos]
  by_cases hd : debug
  · simp [hd]
  · simp [hd]

/-- Claim C2, counterexample: with an empty cache at time 100, a transport
error makes the handler cache the (non-empty) enriched fallback list and
set `lastFetchTime` to 100 — the cache is NOT left unchanged — and a second
request 100 ms later is served from the cache without a fetch, so the live
source is not retried. -/
theorem claim2_counterexample :
    (Lotto.handler Lotto.initialState .get 100 false (.err "connect ETIMEDOUT") 2025).state.lastFetchTime = 100 ∧
    (Lotto.handler Lotto.initialState .get 100 false (.err "connect ETIMEDOUT") 2025).state.cachedResults.length = 3 ∧
    Lotto.initialState.lastFetchTime = 0 ∧
    Lotto.initialState.cachedResults.length = 0 ∧
    (Lotto.handler (Lotto.handler Lotto.initialState .get 100 false (.err "connect ETIMEDOUT") 2025).state
        .get 200 false (.err "second attempt") 2025).fetched = false := by
  decide

/-- Claim C2, amended: on a transport error or a parse yielding zero valid
records (with the cache empty or stale), the handler responds with the
enriched fallback dataset and the cache IS updated — `cachedResults`
becomes the enriched fallback list and `lastFetchTime` becomes "now"
(because the scrape returns the non-empty fallback list and the handler
caches any non-empty result) — so any subsequent request within the
freshness window is served the cached fallback without retrying the live
source. -/
theorem claim2_amended (s : Lotto.ServerState) (t : Int) (debug : Bool)
    (o : Lotto.FetchOutcome) (y : Int)
    (hstale : ¬(0 < s.cachedResults.length ∧ t - s.lastFetchTime < Lotto.CACHE_DURATION))
    (hfail : Lotto.scrapeFailed o y = true) :
    (Lotto.handler s .get t debug o y).resp.body.resultsList =
      Lotto.enrichedFallback (Lotto.scrapeLottoResultsWithDiagnostics o y).2 ∧
    (Lotto.handler s .get t debug o y).state =
      ⟨Lotto.enrichedFallback (Lotto.scrapeLottoResultsWithDiagnostics o y).2, t,
       some (Lotto.scrapeLottoResultsWithDiagnostics o y).2⟩ ∧
    (∀ (t2 : Int) (d2 : Bool) (o2 : Lotto.FetchOutcome) (y2 : Int),
      t2 - t < Lotto.CACHE_DURATION →
      (Lotto.handler (Lotto.handler s .get t debug o y).state .get t2 d2 o2 y2).fetched = false ∧
      (Lotto.handler (Lotto.handler s .get t debug o y).state .get t2 d2 o2 y2).resp.body.resultsList =
        Lotto.enrichedFallback (Lotto.scrapeLottoResultsWithDiagnostics o y).2) := by
  have h := handler_fetchFailed s t debug o y hstale hfail
  refine ⟨?_, ?_, ?_⟩
  · rw [h]
    by_cases hd : debug <;> simp [hd, Lotto.ResponseBody.resultsList]
  · rw [h]
  · intro t2 d2 o2 y2 ht2
    rw [h]
    have hne : Lotto.enrichedFallback (Lotto.scrapeLottoResultsWithDiagnostics o y).2 ≠ [] := by
      rw [enrichedFallback_eq]
      exact List.cons_ne_nil _ _
    have hc := handler_cacheHit
      ⟨Lotto.enrichedFallback (Lotto.scrapeLottoResultsWithDiagnostics o y).2, t,
       some (Lotto.scrapeLottoResultsWithDiagnostics o y).2⟩ t2 d2 o2 y2 hne ht2
    rw [hc]
    refine ⟨rfl, ?_⟩
    by_cases hd2 : d2 <;> simp [hd2, Lotto.ResponseBody.resultsList]

/-- Witness for the amended C2 theorem at a concrete failed request. -/
theorem claim2_amended_witness :
    (Lotto.handler Lotto.initialState .get 7 true (.err "read ECONNRESET") 2025).state =
      ⟨Lotto.enrichedFallback
        (Lotto.scrapeLottoResultsWithDiagnostics (.err "read ECONNRESET") 2025).2, 7,
       some (Lotto.scrapeLottoResultsWithDiagnostics (.err "read ECONNRESET") 2025).2⟩ ∧
    (Lotto.handler (Lotto.handler Lotto.initialState .get 7 true (.err "read ECONNRESET") 2025).state
        .get 1000 false (.err "again") 2025).fetched = false :=
  ⟨(claim2_amended Lotto.initialState 7 true (.err "read ECONNRESET") 2025
      (by decide) (by decide)).2.1,
   ((claim2_amended Lotto.initialState 7 true (.err "read ECONNRESET") 2025
      (by decide) (by decide)).2.2 1000 false (.err "again") 2025 (by decide)).1⟩

/-- Claim C3, counterexample: on a transport error with an empty cache the
endpoint does answer 200 with 3 records, but the body is NOT exactly the 3
fixed fallback records — the first record additionally carries the failure
diagnostics in `debugInfo` (attached unconditionally, not only in debug
mode). -/
theorem claim3_counterexample :
    (Lotto.handler Lotto.initialState .get 0 false (.err "connect ECONNREFUSED") 2025).resp.status = 200 ∧
    (Lotto.handler Lotto.initialState .get 0 false (.err "connect ECONNREFUSED") 2025).resp.body.resultsList.length = 3 ∧
    (Lotto.handler Lotto.initialState .get 0 false (.err "connect ECONNREFUSED") 2025).resp.body.resultsList ≠
      fallbackResults := by
  decide

/-- Claim C3, amended: on a transport error with the cache empty or stale,
the endpoint responds with HTTP 200 and 3 records, each with
`isLive = false`; the second and third are exactly the fixed fallback
records, and the first equals the fixed first fallback record except that
the serialised failure diagnostics are attached as `debugInfo`. -/
theorem claim3_amended (s : Lotto.ServerState) (t : Int) (debug : Bool) (y : Int)
    (msg : String)
    (hstale : ¬(0 < s.cachedResults.length ∧ t - s.lastFetchTime < Lotto.CACHE_DURATION)) :
    (Lotto.handler s .get t debug (.err msg) y).resp.status = 200 ∧
    (Lotto.handler s .get t debug (.err msg) y).resp.body.resultsList =
      Lotto.enrichedFallback (Lotto.errDiagnostics msg) ∧
    (Lotto.enrichedFallback (Lotto.errDiagnostics msg)).length = 3 ∧
    (∀ r ∈ Lotto.enrichedFallback (Lotto.errDiagnostics msg), r.isLive = some false) ∧
    (Lotto.enrichedFallback (Lotto.errDiagnostics msg)).tail = fallbackResults.tail ∧
    Lotto.firstDebugInfo (Lotto.enrichedFallback (Lotto.errDiagnostics msg)) =
      some (jsonOfDiagnostics (Lotto.errDiagnostics msg)) := by
  have h := handler_fetchFailed s t debug (.err msg) y hstale rfl
  refine ⟨?_, ?_, enrichedFallback_length _, enrichedFallback_isLive _, ?_, ?_⟩
  · rw [h]
  · rw [h]
    by_cases hd : debug <;> simp [hd, Lotto.ResponseBody.resultsList] <;> rfl
  · rw [enrichedFallback_eq]
    rfl
  · rw [enrichedFallback_eq]
    rfl

/-- Witness for the amended C3 theorem at a concrete failed request. -/
theorem claim3_amended_witness :
    (Lotto.handler Lotto.initialState .get 3 false (.err "timeout of 15000ms exceeded") 2025).resp.status = 200 ∧
    (Lotto.handler Lotto.initialState .get 3 false (.err "timeout of 15000ms exceeded") 2025).resp.body.resultsList =
      Lotto.enrichedFallback (Lotto.errDiagnostics "timeout of 15000ms exceeded") :=
  ⟨(claim3_amended Lotto.initialState 3 false 2025 "timeout of 15000ms exceeded" (by decide)).1,
   (claim3_amended Lotto.initialState 3 false 2025 "timeout of 15000ms exceeded" (by decide)).2.1⟩

/-- Claim C9, counterexample: a non-debug request whose fetch fails gets a
bare (non-envelope) body whose first record carries serialised diagnostics
in `debugInfo` — the records are not free of diagnostic information outside
debug mode. -/
theorem claim9_counterexample :
    (Lotto.handler Lotto.initialState .get 7 false (.err "socket hang up") 2025).resp.body.isEnvelope = false ∧
    Lotto.firstDebugInfo
      ((Lotto.handler Lotto.initialState .get 7 false (.err "socket hang up") 2025).resp.body.resultsList) ≠
      none := by
  decide

/-- Claim C9, amended: the diagnostics envelope appears only when the debug
flag is truthy (without it the body is always a bare array), but the
serialised failure diagnostics are attached to the first fallback record on
every scrape failure regardless of debug mode. -/
theorem claim9_amended :
    (∀ (s : Lotto.ServerState) (m : Lotto.HttpMethod) (t : Int) (o : Lotto.FetchOutcome) (y : Int),
      (Lotto.handler s m t false o y).resp.body.isEnvelope = false) ∧
    (∀ (s : Lotto.ServerState) (t : Int) (debug : Bool) (y : Int) (msg : String),
      ¬(0 < s.cachedResults.length ∧ t - s.lastFetchTime < Lotto.CACHE_DURATION) →
      Lotto.firstDebugInfo ((Lotto.handler s .get t debug (.err msg) y).resp.body.resultsList) =
        some (jsonOfDiagnostics (Lotto.errDiagnostics msg))) := by
  constructor
  · intro s m t o y
    cases m with
    | options => rfl
    | other name => rfl
    | get =>
      unfold Lotto.handler
      simp only []
      split
      · rfl
      · rfl
  · intro s t debug y msg hstale
    have h := handler_fetchFailed s t debug (.err msg) y hstale rfl
    rw [h]
    by_cases hd : debug <;>
      simp [hd, Lotto.ResponseBody.resultsList, enrichedFallback_eq, Lotto.firstDebugInfo] <;>
      rfl

/-- Witness for the amended C9 theorem at concrete requests. -/
theorem claim9_amended_witness :
    (Lotto.handler Lotto.initialState .get 11 false (.err "boom") 2025).resp.body.isEnvelope = false ∧
    Lotto.firstDebugInfo
      ((Lotto.handler Lotto.initialState .get 9 true (.err "boom") 2025).resp.body.resultsList) =
      some (jsonOfDiagnostics (Lotto.errDiagnostics "boom")) :=
  ⟨claim9_amended.1 Lotto.initialState .get 11 (.err "boom") 2025,
   claim9_amended.2 Lotto.initialState 9 true 2025 "boom" (by decide)⟩

/-- Claim C6: while the cache is non-empty and fresh (age below the 1-hour
window) both of two successive GET requests are served the identical cached
results sequence, neither attempts a fetch, the state is unchanged, the
debug envelope reports ages `t1 - lastFetchTime` and `t2 - lastFetchTime`,
and the reported age is monotone in — and strictly increasing with — the
wall clock. -/
theorem claim6_cache_window (s : Lotto.ServerState) (t1 t2 : Int) (d1 d2 : Bool)
    (o1 o2 : Lotto.FetchOutcome) (y1 y2 : Int)
    (hne : s.cachedResults ≠ [])
    (h1 : t1 - s.lastFetchTime < Lotto.CACHE_DURATION)
    (h2 : t2 - s.lastFetchTime < Lotto.CACHE_DURATION) :
    (Lotto.handler s .get t1 d1 o1 y1).resp.body.resultsList = s.cachedResults ∧
    (Lotto.handler s .get t1 d1 o1 y1).state = s ∧
    (Lotto.handler s .get t1 d1 o1 y1).fetched = false ∧
    (Lotto.handler (Lotto.handler s .get t1 d1 o1 y1).state .get t2 d2 o2 y2).resp.body.resultsList =
      s.cachedResults ∧
    (Lotto.handler (Lotto.handler s .get t1 d1 o1 y1).state .get t2 d2 o2 y2).fetched = false ∧
    (d1 = true → (Lotto.handler s .get t1 d1 o1 y1).resp.body.cacheInfoOf =
      some ⟨true, t1 - s.lastFetchTime, s.lastFetchTime⟩) ∧
    (d2 = true →
      (Lotto.handler (Lotto.handler s .get t1 d1 o1 y1).state .get t2 d2 o2 y2).resp.body.cacheInfoOf =
        some ⟨true, t2 - s.lastFetchTime, s.lastFetchTime⟩) ∧
    (t1 ≤ t2 → t1 - s.lastFetchTime ≤ t2 - s.lastFetchTime) ∧
    (t1 < t2 → t1 - s.lastFetchTime < t2 - s.lastFetchTime) := by
  have hA := handler_cacheHit s t1 d1 o1 y1 hne h1
  have hstate : (Lotto.handler s .get t1 d1 o1 y1).state = s := by rw [hA]
  have hB := handler_cacheHit s t2 d2 o2 y2 hne h2
  refine ⟨?_, hstate, ?_, ?_, ?_, ?_, ?_, ?_, ?_⟩
  · rw [hA]
    by_cases hd : d1 <;> simp [hd, Lotto.ResponseBody.resultsList]
  · rw [hA]
  · rw [hstate, hB]
    by_cases hd : d2 <;> simp [hd, Lotto.ResponseBody.resultsList]
  · rw [hstate, hB]
  · intro hd
    rw [hA]
    simp [hd, Lotto.ResponseBody.cacheInfoOf]
  · intro hd
    rw [hstate, hB]
    simp [hd, Lotto.ResponseBody.cacheInfoOf]
  · intro hle
    exact sub_le_sub_right hle _
  · intro hlt
    exact sub_lt_sub_right hlt _

/-- Witness for C6 at a concrete fresh-cache state and two requests. -/
theorem claim6_cache_window_witness :
    (Lotto.handler ⟨fallbackResults, 5, none⟩ .get 10 true (.err "a") 2025).resp.body.resultsList =
      fallbackResults ∧
    (Lotto.handler ⟨fallbackResults, 5, none⟩ .get 10 true (.err "a") 2025).fetched = false ∧
    (Lotto.handler (Lotto.handler ⟨fallbackResults, 5, none⟩ .get 10 true (.err "a") 2025).state
        .get 30 true (.err "b") 2025).resp.body.cacheInfoOf = some ⟨true, 25, 5⟩ ∧
    ((10 : Int) - 5 < (30 : Int) - 5) :=
  ⟨(claim6_cache_window ⟨fallbackResults, 5, none⟩ 10 30 true true (.err "a") (.err "b") 2025 2025
      (by decide) (by decide) (by decide)).1,
   (claim6_cache_window ⟨fallbackResults, 5, none⟩ 10 30 true true (.err "a") (.err "b") 2025 2025
      (by decide) (by decide) (by decide)).2.2.1,
   (claim6_cache_window ⟨fallbackResults, 5, none⟩ 10 30 true true (.err "a") (.err "b") 2025 2025
      (by decide) (by decide) (by decide)).2.2.2.2.2.2.1 rfl,
   (claim6_cache_window ⟨fallbackResults, 5, none⟩ 10 30 true true (.err "a") (.err "b") 2025 2025
      (by decide) (by decide) (by decide)).2.2.2.2.2.2.2.2 (by decide)⟩

/-- Claim C7: a debug GET request served from a fresh, non-empty cache gets
an envelope whose diagnostics steps end with a `cache_used` step (appended
after the retained prior attempt's steps when present) and whose
`cache.used` is `true`. -/
theorem claim7_debug_cache_hit (s : Lotto.ServerState) (t : Int)
    (o : Lotto.FetchOutcome) (y : Int)
    (hne : s.cachedResults ≠ []) (hfresh : t - s.lastFetchTime < Lotto.CACHE_DURATION) :
    (((Lotto.handler s .get t true o y).resp.body.diagnosticsOf).bind
        (fun d => d.steps.getLast?)).map (fun st => st.label) = some "cache_used" ∧
    ((Lotto.handler s .get t true o y).resp.body.cacheInfoOf).map (fun c => c.used) =
      some true := by
  rw [handler_cacheHit s t true o y hne hfresh]
  constructor
  · cases h : s.lastDiagnostics with
    | some ld =>
      simp [Lotto.ResponseBody.diagnosticsOf, Lotto.cacheHitDiagnostics, h,
        lastOfAppendOne, Lotto.cacheStep]
    | none =>
      simp [Lotto.ResponseBody.diagnosticsOf, Lotto.cacheHitDiagnostics, h, Lotto.cacheStep]
  · simp [Lotto.ResponseBody.cacheInfoOf]

/-- Witness for C7 at a concrete fresh-cache debug request. -/
theorem claim7_debug_cache_hit_witness :
    (((Lotto.handler ⟨fallbackResults, 0, none⟩ .get 12 true (.err "x") 2025).resp.body.diagnosticsOf).bind
        (fun d => d.steps.getLast?)).map (fun st => st.label) = some "cache_used" ∧
    ((Lotto.handler ⟨fallbackResults, 0, none⟩ .get 12 true (.err "x") 2025).resp.body.cacheInfoOf).map
        (fun c => c.used) = some true :=
  claim7_debug_cache_hit ⟨fallbackResults, 0, none⟩ 12 (.err "x") 2025 (by decide) (by decide)

/-- A document on which the structured-markup (card) strategy yields zero
candidates while a results table with a header row and one data row of
seven numeric cells is present. -/
def tableOnlyDoc : CardDocument :=
  ⟨[], [["Date", "N1", "N2", "N3", "N4", "N5", "SB", "Bonus"],
        ["10/29/2025", "21", "33", "40", "42", "50", "5", "2"]]⟩

/-- Claim C5, counterexample: on a document whose card strategy yields zero
candidates but which contains a perfectly parseable results table, the
`part_001` scraper returns the fallback dataset — not the record the
spec's tabular strategy would produce — so no tabular strategy is attempted
before giving up. -/
theorem claim5_counterexample :
    (Part001.scrapeParse tableOnlyDoc).1 = fallbackResults ∧
    Part001.tabularStrategy tableOnlyDoc.tableRows =
      [{ date := "10/29/2025", numbers := [21, 33, 40, 42, 50], starBall := 5,
         allStarBonus := 2, winners := 0, jackpot := "Not available",
         isLive := some true, debugInfo := none }] ∧
    (Part001.scrapeParse tableOnlyDoc).1 ≠ Part001.tabularStrategy tableOnlyDoc.tableRows := by
  decide

/-- Claim C5, amended: when the structured-markup (card) strategy yields
zero candidate records, `part_001` immediately returns the fallback dataset
(logging a final `fallback_used` step and setting `usedFallback`); no
tabular strategy exists in the repository and none is attempted on the
document. -/
theorem claim5_amended (doc : CardDocument)
    (hempty : (Part001.parseCardsAux 0 doc.cards).1 = []) :
    (Part001.scrapeParse doc).1 = fallbackResults ∧
    ((Part001.scrapeParse doc).2.steps.getLast?).map (fun st => st.label) =
      some "fallback_used" ∧
    (Part001.scrapeParse doc).2.usedFallback = some true := by
  unfold Part001.scrapeParse
  simp only []
  rw [hempty]
  rw [if_pos (show ([] : List LottoResult).length = 0 from rfl)]
  exact ⟨rfl, lastLabelOfConsAppend _ _ _, rfl⟩

/-- Witness for the amended C5 theorem at a concrete cardless document. -/
theorem claim5_amended_witness :
    (Part001.scrapeParse tableOnlyDoc).1 = fallbackResults ∧
    ((Part001.scrapeParse tableOnlyDoc).2.steps.getLast?).map (fun st => st.label) =
      some "fallback_used" ∧
    (Part001.scrapeParse tableOnlyDoc).2.usedFallback = some true :=
  claim5_amended tableOnlyDoc (by decide)

/-! ## Sequences of handler invocations -/

namespace Lotto

/-- One GET request: its `Date.now()`, debug flag and fetch outcome. -/
structure ReqInput where
  time : Int
  debug : Bool
  outcome : FetchOutcome
deriving DecidableEq

/-- Run a sequence of GET requests, threading the module state. -/
def runRequests (y : Int) (s : ServerState) : List ReqInput → ServerState
  | [] => s
  | r :: rest => runRequests y (handler s .get r.time r.debug r.outcome y).state rest

/-- The request times are non-decreasing and bounded below by `lo`
(the wall clock does not go backwards across requests). -/
def timesSortedFrom (lo : Int) : List ReqInput → Bool
  | [] => true
  | r :: rest => decide (lo ≤ r.time) && timesSortedFrom r.time rest

end Lotto

theorem timesSortedFrom_mono (lo lo' : Int) (rs : List Lotto.ReqInput)
    (h : lo' ≤ lo) (hs : Lotto.timesSortedFrom lo rs = true) :
    Lotto.timesSortedFrom lo' rs = true := by
  cases rs with
  | nil => rfl
  | cons r rest =>
    unfold Lotto.timesSortedFrom at hs ⊢
    have hp := (Bool.and_eq_true _ _).mp hs
    exact (Bool.and_eq_true _ _).mpr
      ⟨decide_eq_true (le_trans h (of_decide_eq_true hp.1)), hp.2⟩

/-- The state after one GET request, as a closed-form conditional. -/
theorem handler_get_state (s : Lotto.ServerState) (t : Int) (d : Bool)
    (o : Lotto.FetchOutcome) (y : Int) :
    (Lotto.handler s .get t d o y).state =
      if 0 < s.cachedResults.length ∧ t - s.lastFetchTime < Lotto.CACHE_DURATION then s
      else if 0 < (Lotto.scrapeLottoResultsWithDiagnostics o y).1.length then
        ⟨(Lotto.scrapeLottoResultsWithDiagnostics o y).1, t,
         some (Lotto.scrapeLottoResultsWithDiagnostics o y).2⟩
      else ⟨s.cachedResults, s.lastFetchTime,
            some (Lotto.scrapeLottoResultsWithDiagnostics o y).2⟩ := by
  unfold Lotto.handler
  simp only []
  split
  case isTrue hcond =>
    by_cases hd : d <;> simp [hd]
  case isFalse hcond =>
    by_cases hd : d <;> simp [hd]

theorem handler_state_step (s : Lotto.ServerState) (t : Int) (d : Bool)
    (o : Lotto.FetchOutcome) (y : Int) :
    ((Lotto.handler s .get t d o y).state.cachedResults = [] → s.cachedResults = []) ∧
    (s.lastFetchTime ≤ t →
      s.lastFetchTime ≤ (Lotto.handler s .get t d o y).state.lastFetchTime ∧
      (Lotto.handler s .get t d o y).state.lastFetchTime ≤ t) := by
  rw [handler_get_state]
  by_cases hcond : 0 < s.cachedResults.length ∧ t - s.lastFetchTime < Lotto.CACHE_DURATION
  · rw [if_pos hcond]
    exact ⟨fun h => h, fun h => ⟨le_refl _, h⟩⟩
  · rw [if_neg hcond]
    by_cases hpos : 0 < (Lotto.scrapeLottoResultsWithDiagnostics o y).1.length
    · rw [if_pos hpos]
      refine ⟨?_, fun h => ⟨h, le_refl _⟩⟩
      intro hmid
      exfalso
      have h2 : (Lotto.scrapeLottoResultsWithDiagnostics o y).1 = [] := hmid
      rw [h2] at hpos
      exact absurd hpos (by simp)
    · rw [if_neg hpos]
      exact ⟨fun h => h, fun h => ⟨le_refl _, h⟩⟩

/-- Claim C10: across any sequence of GET requests whose times do not go
backwards, once `cachedResults` is non-empty it never becomes empty again
(the cache is only overwritten wholesale with a non-empty list), and
`lastFetchTime` is monotonically non-decreasing. -/
theorem claim10_cache_invariants (y : Int) (s : Lotto.ServerState)
    (reqs : List Lotto.ReqInput)
    (hsorted : Lotto.timesSortedFrom s.lastFetchTime reqs = true) :
    (s.cachedResults ≠ [] → (Lotto.runRequests y s reqs).cachedResults ≠ []) ∧
    s.lastFetchTime ≤ (Lotto.runRequests y s reqs).lastFetchTime := by
  induction reqs generalizing s with
  | nil => exact ⟨fun h => h, le_refl _⟩
  | cons r rest ih =>
    unfold Lotto.timesSortedFrom at hsorted
    have hp := (Bool.and_eq_true _ _).mp hsorted
    have hle : s.lastFetchTime ≤ r.time := of_decide_eq_true hp.1
    have hstep := handler_state_step s r.time r.debug r.outcome y
    have hfetch := hstep.2 hle
    have hsorted2 : Lotto.timesSortedFrom
        (Lotto.handler s .get r.time r.debug r.outcome y).state.lastFetchTime rest = true :=
      timesSortedFrom_mono _ _ _ hfetch.2 hp.2
    have hrec := ih _ hsorted2
    unfold Lotto.runRequests
    refine ⟨?_, le_trans hfetch.1 hrec.2⟩
    intro hne hempty
    exact absurd (fun hmid => hne (hstep.1 hmid)) (by simpa using hrec.1 · hempty)

/-- Witness for C10: a concrete two-request run from a populated state. -/
theorem claim10_cache_invariants_witness :
    ((⟨fallbackResults, 5, none⟩ : Lotto.ServerState).cachedResults ≠ [] →
      (Lotto.runRequests 2025 ⟨fallbackResults, 5, none⟩
        [⟨10, false, .err "a"⟩, ⟨20, true, .err "b"⟩]).cachedResults ≠ []) ∧
    (⟨fallbackResults, 5, none⟩ : Lotto.ServerState).lastFetchTime ≤
      (Lotto.runRequests 2025 ⟨fallbackResults, 5, none⟩
        [⟨10, false, .err "a"⟩, ⟨20, true, .err "b"⟩]).lastFetchTime :=
  claim10_cache_invariants 2025 ⟨fallbackResults, 5, none⟩
    [⟨10, false, .err "a"⟩, ⟨20, true, .err "b"⟩] (by decide)
